import Mathlib

/-!
Verification of the Mergington High School activities API (src/src/app.py).

The MongoDB `activities` collection is modelled as an association list of
`(_id, document)` records.  Request JSON bodies are modelled as association
lists from keys to string-or-null values, so that `data.get("email")` can
return the null value (`none`) exactly as Python's `dict.get` does.
-/

namespace Mergington

/-- An activity document as stored in the `activities` collection.
Participants are email values; a JSON null participant is `none`. -/
structure Activity where
  description : String
  schedule : String
  max_participants : Nat
  participants : List (Option String)
deriving DecidableEq, Repr

/-- The `activities` collection: a finite sequence of records keyed by `_id`. -/
abbrev Store := List (String × Activity)

/-- `collection.count_documents({})`. -/
def count_documents (store : Store) : Nat := store.length

/-- `collection.find_one({"_id": name})`: the first record whose `_id`
matches, if any. -/
def find_one (store : Store) (name : String) : Option Activity :=
  (store.find? (fun r => r.1 == name)).map (·.2)

/-- `collection.drop()`: delete every record. -/
def dropCollection (_store : Store) : Store := []

/-- `collection.insert_one({"_id": name, **details})`: append a new record. -/
def insert_one (store : Store) (name : String) (details : Activity) : Store :=
  store ++ [(name, details)]

/-- MongoDB `$pull` filter on an array: removes every element equal to the
given value. -/
def pullAll (l : List (Option String)) (email : Option String) :
    List (Option String) :=
  l.filter (fun x => !(x == email))

/-- `collection.update_one({"_id": name}, {"$push": {"participants": email}})`:
appends `email` to the `participants` array of the first record whose `_id`
matches; all other records and fields are untouched. -/
def pushParticipant : Store → String → Option String → Store
  | [], _, _ => []
  | r :: rs, name, email =>
    if r.1 == name then
      (r.1, { r.2 with participants := r.2.participants ++ [email] }) :: rs
    else
      r :: pushParticipant rs name email

/-- `collection.update_one({"_id": name}, {"$pull": {"participants": email}})`:
removes every occurrence of `email` from the `participants` array of the first
record whose `_id` matches; all other records and fields are untouched. -/
def pullParticipant : Store → String → Option String → Store
  | [], _, _ => []
  | r :: rs, name, email =>
    if r.1 == name then
      (r.1, { r.2 with participants := pullAll r.2.participants email }) :: rs
    else
      r :: pullParticipant rs name email

/-- Outcomes of the roster handlers; each maps to the HTTPException raised in
`signup_for_activity` / `unregister_participant`. -/
inductive RosterError
  | NotFound
  | AlreadyRegistered
  | ActivityFull
  | NotRegistered
deriving DecidableEq, Repr

/-- A parsed JSON request body: keys mapped to string-or-null values. -/
abbrev Body := List (String × Option String)

/-- Python `data.get(key)` on a parsed JSON body: the value under `key`, or
`None` when the key is absent (and `None` when the stored value is null). -/
def jsonGet (data : Body) (key : String) : Option String :=
  match data.find? (fun kv => kv.1 == key) with
  | some kv => kv.2
  | none => none

/-- Python f-string rendering of the email value (`None` prints as "None"). -/
def emailText : Option String → String
  | some s => s
  | none => "None"

/-- The body of `signup_for_activity` after `email = data.get("email")`:
fetch the activity once, validate membership then capacity against that
snapshot, and on success `$push` the email.  Embeds src/src/app.py lines
116-134. -/
def signUp (store : Store) (activity_name : String) (email : Option String) :
    Except RosterError String × Store :=
  match find_one store activity_name with
  | none => (Except.error RosterError.NotFound, store)
  | some activity =>
    if email ∈ activity.participants then
      (Except.error RosterError.AlreadyRegistered, store)
    else if activity.participants.length ≥ activity.max_participants then
      (Except.error RosterError.ActivityFull, store)
    else
      (Except.ok ("Signed up " ++ emailText email ++ " for " ++ activity_name),
       pushParticipant store activity_name email)

/-- The full signup handler: extracts `email` from the request body and runs
the roster logic.  Embeds `signup_for_activity` (src/src/app.py lines
106-134). -/
def signup_for_activity (store : Store) (activity_name : String)
    (data : Body) : Except RosterError String × Store :=
  signUp store activity_name (jsonGet data "email")

/-- The body of `unregister_participant` after `email = data.get("email")`:
fetch the activity once, require membership, and on success `$pull` the
email.  Embeds src/src/app.py lines 147-161. -/
def unregister (store : Store) (activity_name : String)
    (email : Option String) : Except RosterError String × Store :=
  match find_one store activity_name with
  | none => (Except.error RosterError.NotFound, store)
  | some activity =>
    if email ∉ activity.participants then
      (Except.error RosterError.NotRegistered, store)
    else
      (Except.ok ("Unregistered " ++ emailText email ++ " from " ++
          activity_name),
       pullParticipant store activity_name email)

/-- The full unregister handler: extracts `email` from the request body and
runs the roster logic.  Embeds `unregister_participant` (src/src/app.py lines
137-161). -/
def unregister_participant (store : Store) (activity_name : String)
    (data : Body) : Except RosterError String × Store :=
  unregister store activity_name (jsonGet data "email")

/-- The seed loader, embedding `initialize_database` (src/src/app.py lines
37-59).  The seed catalog is the parsed contents of src/activities.json
(not under src/), so the loader is parametric in the catalog; per the spec
every catalog entry carries an empty participant list.  If more than 10
records exist the collection is dropped and the count treated as 0; an empty
(or just-dropped) collection is populated with every catalog entry keyed by
activity name; otherwise the store is left untouched. -/
def init_database (catalog : List (String × Activity)) (store : Store) :
    Store :=
  let count := count_documents store
  if count > 10 then
    (catalog.foldl (fun s e => insert_one s e.1 e.2) (dropCollection store))
  else if count = 0 then
    (catalog.foldl (fun s e => insert_one s e.1 e.2) store)
  else
    store

/-- A JSON response value: string or integer. -/
inductive JsonVal
  | str (s : String)
  | int (n : Nat)
deriving DecidableEq, Repr

/-- The `/db-status` handler, embedding `get_db_status` (src/src/app.py lines
164-175).  The database handle is modelled by the name it carries when
available (`db.name`); the handler returns status 200 with the JSON object
written in the source, as an ordered field list. -/
def get_db_status (store : Store) (db : Option String) :
    Nat × List (String × JsonVal) :=
  (200,
   [("activities_count", JsonVal.int (count_documents store)),
    ("connection_status",
      JsonVal.str (if db.isSome then "Connected" else "Not connected")),
    ("database_name",
      JsonVal.str (match db with
        | some n => n
        | none => "Not available"))])

/-- The roster invariant of spec §8: every record's participant list is
within capacity and free of duplicates. -/
def RosterInv (store : Store) : Prop :=
  ∀ r ∈ store, r.2.participants.length ≤ r.2.max_participants ∧
    r.2.participants.Nodup

instance (store : Store) : Decidable (RosterInv store) := by
  unfold RosterInv; infer_instance

/-- Record-to-record relation for frame reasoning on the operation targeting
key `name`: the key and every field except `participants` agree, and a record
whose key differs from `name` is completely unchanged. -/
def sameFrame (name : String) (r s : String × Activity) : Prop :=
  r.1 = s.1 ∧ r.2.description = s.2.description ∧
    r.2.schedule = s.2.schedule ∧
    r.2.max_participants = s.2.max_participants ∧
    (r.1 ≠ name → r = s)

/-- A concrete two-slot activity used to instantiate universally quantified
theorems (spec §8's concrete scenario). -/
def chessClub : Activity :=
  { description := "Learn strategies and compete in chess tournaments"
    schedule := "Fridays, 3:30 PM - 5:00 PM"
    max_participants := 2
    participants := [] }

/-- A concrete one-record store for witnesses. -/
def demoStore : Store := [("Chess Club", chessClub)]

/-- An activity whose participant list holds the same email twice, probing
the semantics of the `$pull` removal. -/
def artClub : Activity :=
  { description := "Painting and drawing"
    schedule := "Mondays, 3:30 PM - 5:00 PM"
    max_participants := 5
    participants := [some "e@x.com", some "b@x.com", some "e@x.com"] }

/-- A store holding `artClub`, with its duplicated participant. -/
def dupStore : Store := [("Art Club", artClub)]

lemma sameFrame_refl (name : String) (r : String × Activity) :
    sameFrame name r r := by
  simp [sameFrame]

lemma find_one_push (name : String) (email : Option String) :
    ∀ store : Store,
      find_one (pushParticipant store name email) name =
        (find_one store name).map
          (fun A => { A with participants := A.participants ++ [email] })
  | [] => rfl
  | r :: rs => by
    by_cases h : (r.1 == name) = true
    · simp [pushParticipant, find_one, List.find?_cons, h]
    · simp only [pushParticipant, if_neg h]
      simpa [find_one, List.find?_cons, h] using find_one_push name email rs

lemma find_one_pull (name : String) (email : Option String) :
    ∀ store : Store,
      find_one (pullParticipant store name email) name =
        (find_one store name).map
          (fun A => { A with participants := pullAll A.participants email })
  | [] => rfl
  | r :: rs => by
    by_cases h : (r.1 == name) = true
    · simp [pullParticipant, find_one, List.find?_cons, h]
    · simp only [pullParticipant, if_neg h]
      simpa [find_one, List.find?_cons, h] using find_one_pull name email rs

lemma frame_push (name : String) (email : Option String) :
    ∀ store : Store,
      List.Forall₂ (sameFrame name) store (pushParticipant store name email)
  | [] => List.Forall₂.nil
  | r :: rs => by
    by_cases h : (r.1 == name) = true
    · simp only [pushParticipant, if_pos h]
      exact List.Forall₂.cons
        (by
          refine ⟨rfl, rfl, rfl, rfl, fun hne => absurd ?_ hne⟩
          exact (beq_iff_eq (a := r.1) (b := name)).mp h)
        (List.forall₂_same.mpr (fun x _ => sameFrame_refl name x))
    · simp only [pushParticipant, if_neg h]
      exact List.Forall₂.cons (sameFrame_refl name r)
        (frame_push name email rs)

lemma frame_pull (name : String) (email : Option String) :
    ∀ store : Store,
      List.Forall₂ (sameFrame name) store (pullParticipant store name email)
  | [] => List.Forall₂.nil
  | r :: rs => by
    by_cases h : (r.1 == name) = true
    · simp only [pullParticipant, if_pos h]
      exact List.Forall₂.cons
        (by
          refine ⟨rfl, rfl, rfl, rfl, fun hne => absurd ?_ hne⟩
          exact (beq_iff_eq (a := r.1) (b := name)).mp h)
        (List.forall₂_same.mpr (fun x _ => sameFrame_refl name x))
    · simp only [pullParticipant, if_neg h]
      exact List.Forall₂.cons (sameFrame_refl name r)
        (frame_pull name email rs)

lemma foldl_insert_one (catalog : List (String × Activity)) :
    ∀ s : Store,
      catalog.foldl (fun s e => insert_one s e.1 e.2) s = s ++ catalog := by
  induction catalog with
  | nil => intro s; simp
  | cons e es ih =>
    intro s
    rw [List.foldl_cons, ih]
    simp [insert_one]

lemma inv_push (name : String) (email : Option String) :
    ∀ (store : Store) (A : Activity),
      find_one store name = some A →
      email ∉ A.participants →
      A.participants.length < A.max_participants →
      RosterInv store →
      RosterInv (pushParticipant store name email)
  | [], A, hA, _, _, _ => by simp [find_one] at hA
  | r :: rs, A, hA, hmem, hlen, hinv => by
    by_cases h : (r.1 == name) = true
    · have hhead : r.2 = A := by
        simpa [find_one, List.find?_cons, h] using hA
      simp only [pushParticipant, if_pos h]
      intro s hs
      rcases List.mem_cons.mp hs with hs | hs
      · subst hs
        have hr := hinv r (List.mem_cons_self r rs)
        subst hhead
        refine ⟨?_, ?_⟩
        · simpa using Nat.succ_le_of_lt hlen
        · simp [List.nodup_append, hr.2]
          exact hmem
      · exact hinv s (List.mem_cons_of_mem r hs)
    · have htail : find_one rs name = some A := by
        simpa [find_one, List.find?_cons, h] using hA
      simp only [pushParticipant, if_neg h]
      intro s hs
      rcases List.mem_cons.mp hs with hs | hs
      · subst hs
        exact hinv s (List.mem_cons_self s rs)
      · exact inv_push name email rs A htail hmem hlen
          (fun t ht => hinv t (List.mem_cons_of_mem r ht)) s hs

lemma inv_pull (name : String) (email : Option String) :
    ∀ store : Store,
      RosterInv store → RosterInv (pullParticipant store name email)
  | [], _ => by intro s hs; simp [pullParticipant] at hs
  | r :: rs, hinv => by
    by_cases h : (r.1 == name) = true
    · simp only [pullParticipant, if_pos h]
      intro s hs
      rcases List.mem_cons.mp hs with hs | hs
      · subst hs
        have hr := hinv r (List.mem_cons_self r rs)
        refine ⟨?_, ?_⟩
        · exact le_trans (List.length_filter_le _ _) hr.1
        · exact hr.2.filter _
      · exact hinv s (List.mem_cons_of_mem r hs)
    · simp only [pullParticipant, if_neg h]
      intro s hs
      rcases List.mem_cons.mp hs with hs | hs
      · subst hs
        exact hinv s (List.mem_cons_self s rs)
      · exact inv_pull name email rs
          (fun t ht => hinv t (List.mem_cons_of_mem r ht)) s hs

/-- Claim C1: for every stored activity and email, signup fails with NotFound
when no activity of that name exists; otherwise with AlreadyRegistered when
the email is already in the participant list; otherwise with ActivityFull
when the list has reached the maximum participant count; otherwise it appends
the email to the participant list and returns the message
"Signed up {email} for {name}" — the checks evaluated in that order against
the single snapshot fetched at the start. -/
theorem claim_C1 (store : Store) (name : String) (e : String) :
    (find_one store name = none →
      signUp store name (some e) =
        (Except.error RosterError.NotFound, store)) ∧
    (∀ A, find_one store name = some A → some e ∈ A.participants →
      signUp store name (some e) =
        (Except.error RosterError.AlreadyRegistered, store)) ∧
    (∀ A, find_one store name = some A → some e ∉ A.participants →
      A.max_participants ≤ A.participants.length →
      signUp store name (some e) =
        (Except.error RosterError.ActivityFull, store)) ∧
    (∀ A, find_one store name = some A → some e ∉ A.participants →
      A.participants.length < A.max_participants →
      (signUp store name (some e)).1 =
        Except.ok ("Signed up " ++ e ++ " for " ++ name) ∧
      find_one (signUp store name (some e)).2 name =
        some { A with participants := A.participants ++ [some e] }) := by
  refine ⟨?_, ?_, ?_, ?_⟩
  · intro h
    simp [signUp, h]
  · intro A hA hm
    simp [signUp, hA, hm]
  · intro A hA hm hfull
    simp [signUp, hA, hm, hfull]
  · intro A hA hm hlen
    have hnotfull : ¬ A.participants.length ≥ A.max_participants :=
      Nat.not_le_of_lt hlen
    refine ⟨?_, ?_⟩
    · simp [signUp, hA, hm, hnotfull, emailText]
    · simp [signUp, hA, hm, hnotfull, find_one_push]

/-- Witness for C1: on the demo store, signing up a fresh email for
"Chess Club" succeeds and appends the email. -/
theorem claim_C1_witness :
    (signUp demoStore "Chess Club" (some "a@x.com")).1 =
      Except.ok "Signed up a@x.com for Chess Club" ∧
    find_one (signUp demoStore "Chess Club" (some "a@x.com")).2 "Chess Club" =
      some { chessClub with participants := [some "a@x.com"] } := by
  have h := (claim_C1 demoStore "Chess Club" "a@x.com").2.2.2 chessClub
    (by decide) (by decide) (by decide)
  simpa [chessClub] using h

/-- Claim C2: for every stored activity and email, unregister fails with
NotFound when no activity of that name exists; otherwise with NotRegistered
when the email is not in the participant list; otherwise it removes the email
from the participant list and returns the message
"Unregistered {email} from {name}". -/
theorem claim_C2 (store : Store) (name : String) (e : String) :
    (find_one store name = none →
      unregister store name (some e) =
        (Except.error RosterError.NotFound, store)) ∧
    (∀ A, find_one store name = some A → some e ∉ A.participants →
      unregister store name (some e) =
        (Except.error RosterError.NotRegistered, store)) ∧
    (∀ A, find_one store name = some A → some e ∈ A.participants →
      (unregister store name (some e)).1 =
        Except.ok ("Unregistered " ++ e ++ " from " ++ name) ∧
      find_one (unregister store name (some e)).2 name =
        some { A with participants := pullAll A.participants (some e) } ∧
      some e ∉ pullAll A.participants (some e)) := by
  refine ⟨?_, ?_, ?_⟩
  · intro h
    simp [unregister, h]
  · intro A hA hm
    simp [unregister, hA, hm]
  · intro A hA hm
    refine ⟨?_, ?_, ?_⟩
    · simp [unregister, hA, hm, emailText]
    · simp [unregister, hA, hm, find_one_pull]
    · simp [pullAll, List.mem_filter]

/-- Witness for C2: on a store holding one registered email, unregister
succeeds, reports the message, and leaves the email absent. -/
theorem claim_C2_witness :
    (unregister [("Chess Club",
        { chessClub with participants := [some "a@x.com"] })]
      "Chess Club" (some "a@x.com")).1 =
      Except.ok "Unregistered a@x.com from Chess Club" ∧
    find_one (unregister [("Chess Club",
        { chessClub with participants := [some "a@x.com"] })]
      "Chess Club" (some "a@x.com")).2 "Chess Club" =
      some { chessClub with participants := [] } := by
  have h := (claim_C2 [("Chess Club",
      { chessClub with participants := [some "a@x.com"] })]
    "Chess Club" "a@x.com").2.2
    { chessClub with participants := [some "a@x.com"] } (by decide) (by decide)
  exact ⟨h.1, by simpa [chessClub, pullAll] using h.2.1⟩

/-- Claim C4: whenever signup or unregister fails, the store is returned
unchanged: no record is mutated on any error path. -/
theorem claim_C4 (store : Store) (name : String) (email : Option String)
    (err : RosterError) :
    ((signUp store name email).1 = Except.error err →
      (signUp store name email).2 = store) ∧
    ((unregister store name email).1 = Except.error err →
      (unregister store name email).2 = store) := by
  constructor
  · intro h
    rcases hA : find_one store name with _ | A
    · simp [signUp, hA]
    · by_cases hm : email ∈ A.participants
      · simp [signUp, hA, hm]
      · by_cases hfull : A.participants.length ≥ A.max_participants
        · simp [signUp, hA, hm, hfull]
        · simp [signUp, hA, hm, hfull] at h
  · intro h
    rcases hA : find_one store name with _ | A
    · simp [unregister, hA]
    · by_cases hm : email ∈ A.participants
      · simp [unregister, hA, hm] at h
      · simp [unregister, hA, hm]

/-- Witness for C4: a signup and an unregister against a missing activity
both leave the demo store unchanged. -/
theorem claim_C4_witness :
    (signUp demoStore "Robotics" (some "a@x.com")).2 = demoStore ∧
    (unregister demoStore "Robotics" (some "a@x.com")).2 = demoStore := by
  have h := claim_C4 demoStore "Robotics" (some "a@x.com")
    RosterError.NotFound
  exact ⟨h.1 (by rfl), h.2 (by rfl)⟩

/-- Claim C3: the roster invariant — participant count within capacity and no
duplicate email — holds in the state seeded from a catalog of empty rosters,
and is preserved by every sequentially executed signup and unregister. -/
theorem claim_C3 :
    (∀ catalog : List (String × Activity),
      (∀ r ∈ catalog, r.2.participants = []) →
      RosterInv (init_database catalog [])) ∧
    (∀ (store : Store) (name : String) (email : Option String),
      RosterInv store → RosterInv (signUp store name email).2) ∧
    (∀ (store : Store) (name : String) (email : Option String),
      RosterInv store → RosterInv (unregister store name email).2) := by
  refine ⟨?_, ?_, ?_⟩
  · intro catalog hcat
    have h0 : init_database catalog [] = catalog := by
      simp [init_database, count_documents, foldl_insert_one]
    rw [h0]
    intro r hr
    rw [hcat r hr]
    simp
  · intro store name email hinv
    rcases hA : find_one store name with _ | A
    · simpa [signUp, hA] using hinv
    · by_cases hm : email ∈ A.participants
      · simpa [signUp, hA, hm] using hinv
      · by_cases hfull : A.participants.length ≥ A.max_participants
        · simpa [signUp, hA, hm, hfull] using hinv
        · have hlen : A.participants.length < A.max_participants :=
            Nat.lt_of_not_le hfull
          have : (signUp store name email).2 =
              pushParticipant store name email := by
            simp [signUp, hA, hm, hfull]
          rw [this]
          exact inv_push name email store A hA hm hlen hinv
  · intro store name email hinv
    rcases hA : find_one store name with _ | A
    · simpa [unregister, hA] using hinv
    · by_cases hm : email ∈ A.participants
      · have : (unregister store name email).2 =
            pullParticipant store name email := by
          simp [unregister, hA, hm]
        rw [this]
        exact inv_pull name email store hinv
      · simpa [unregister, hA, hm] using hinv

/-- Witness for C3: the invariant holds on the freshly seeded demo catalog and
after a concrete signup and a concrete unregister on the demo store. -/
theorem claim_C3_witness :
    RosterInv (init_database demoStore []) ∧
    RosterInv (signUp demoStore "Chess Club" (some "a@x.com")).2 ∧
    RosterInv (unregister demoStore "Chess Club" (some "a@x.com")).2 :=
  ⟨claim_C3.1 demoStore (by decide),
   claim_C3.2.1 demoStore "Chess Club" (some "a@x.com") (by decide),
   claim_C3.2.2 demoStore "Chess Club" (some "a@x.com") (by decide)⟩

/-- Claim C5: the seed loader drops everything and inserts the whole catalog
when more than 10 records exist, inserts the whole catalog keyed by name when
the store is empty, leaves a store with 1 to 10 records untouched, and is a
no-op when run a second time over a store it just populated from a catalog of
at most 10 entries. -/
theorem claim_C5 (catalog : List (String × Activity)) (store : Store) :
    (count_documents store > 10 → init_database catalog store = catalog) ∧
    (count_documents store = 0 →
      init_database catalog store = store ++ catalog) ∧
    (1 ≤ count_documents store → count_documents store ≤ 10 →
      init_database catalog store = store) ∧
    (catalog.length ≤ 10 →
      init_database catalog (init_database catalog []) =
        init_database catalog []) := by
  refine ⟨?_, ?_, ?_, ?_⟩
  · intro h
    simp [init_database, h, dropCollection, foldl_insert_one]
  · intro h
    have hng : ¬ count_documents store > 10 := by omega
    simp [init_database, h, hng, foldl_insert_one]
  · intro h1 h10
    have hng : ¬ count_documents store > 10 := by omega
    have hnz : ¬ count_documents store = 0 := by omega
    simp [init_database, hng, hnz]
  · intro hc
    have h0 : init_database catalog [] = catalog := by
      simp [init_database, count_documents, foldl_insert_one]
    rw [h0]
    rcases Nat.eq_zero_or_pos catalog.length with hz | hp
    · have : catalog = [] := List.length_eq_zero.mp hz
      subst this
      simp [init_database, count_documents]
    · have hng : ¬ count_documents catalog > 10 := by
        simp only [count_documents]; omega
      have hnz : ¬ count_documents catalog = 0 := by
        simp only [count_documents]; omega
      simp [init_database, hng, hnz]

/-- Witness for C5: a second run over the store the loader just populated
from the one-entry demo catalog leaves it unchanged, and a store holding one
record is left untouched. -/
theorem claim_C5_witness :
    init_database demoStore demoStore = demoStore ∧
    init_database demoStore (init_database demoStore []) =
      init_database demoStore [] := by
  have h := claim_C5 demoStore demoStore
  exact ⟨h.2.2.1 (by decide) (by decide), h.2.2.2 (by decide)⟩

/-- Claim C6: with at least two free slots and a fresh email, two sequential
signups of the same email yield success and then AlreadyRegistered. -/
theorem claim_C6 (store : Store) (name : String) (e : String) (A : Activity)
    (hA : find_one store name = some A)
    (hmem : some e ∉ A.participants)
    (hroom : A.participants.length + 2 ≤ A.max_participants) :
    (signUp store name (some e)).1 =
      Except.ok ("Signed up " ++ e ++ " for " ++ name) ∧
    (signUp (signUp store name (some e)).2 name (some e)).1 =
      Except.error RosterError.AlreadyRegistered := by
  have hnotfull : ¬ A.participants.length ≥ A.max_participants := by omega
  have hs : signUp store name (some e) =
      (Except.ok ("Signed up " ++ e ++ " for " ++ name),
        pushParticipant store name (some e)) := by
    simp [signUp, hA, hmem, hnotfull, emailText]
  refine ⟨by rw [hs], ?_⟩
  rw [hs]
  have hf : find_one (pushParticipant store name (some e)) name =
      some { A with participants := A.participants ++ [some e] } := by
    rw [find_one_push, hA]
    rfl
  simp [signUp, hf]

/-- Witness for C6: two signups of "a@x.com" for "Chess Club" on the demo
store yield success and then AlreadyRegistered. -/
theorem claim_C6_witness :
    (signUp demoStore "Chess Club" (some "a@x.com")).1 =
      Except.ok ("Signed up " ++ "a@x.com" ++ " for " ++ "Chess Club") ∧
    (signUp (signUp demoStore "Chess Club" (some "a@x.com")).2 "Chess Club"
        (some "a@x.com")).1 =
      Except.error RosterError.AlreadyRegistered :=
  claim_C6 demoStore "Chess Club" "a@x.com" chessClub
    (by decide) (by decide) (by decide)

/-- Counterexample to C7: on a participant list holding "e@x.com" twice, the
`$pull` issued by unregister does not remove only the first occurrence — it
removes both, so the later occurrence does not stay in place. -/
theorem claim_C7_cex :
    find_one (unregister dupStore "Art Club" (some "e@x.com")).2 "Art Club" ≠
      some { artClub with
        participants := [some "b@x.com", some "e@x.com"] } ∧
    find_one (unregister dupStore "Art Club" (some "e@x.com")).2 "Art Club" =
      some { artClub with participants := [some "b@x.com"] } := by
  decide

/-- Claim C7 (amended): for a stored activity whose participant list contains
the email, the `$pull` performed by unregister removes every occurrence of
that email, leaving all other elements in place and in order. -/
theorem claim_C7 (store : Store) (name : String) (e : String) (A : Activity)
    (hA : find_one store name = some A)
    (hmem : some e ∈ A.participants) :
    find_one (unregister store name (some e)).2 name =
      some { A with participants :=
        A.participants.filter (fun x => !(x == some e)) } ∧
    some e ∉ A.participants.filter (fun x => !(x == some e)) ∧
    (A.participants.filter (fun x => !(x == some e))).Sublist
      A.participants := by
  refine ⟨?_, ?_, ?_⟩
  · simp [unregister, hA, hmem, find_one_pull, pullAll]
  · simp [List.mem_filter]
  · exact List.filter_sublist _

/-- Witness for C7: removing "e@x.com" from the duplicated roster leaves
exactly the elements that differ from it. -/
theorem claim_C7_witness :
    find_one (unregister dupStore "Art Club" (some "e@x.com")).2 "Art Club" =
      some { artClub with participants :=
        artClub.participants.filter (fun x => !(x == some "e@x.com")) } :=
  (claim_C7 dupStore "Art Club" "e@x.com" artClub (by decide) (by decide)).1

/-- Counterexample to C8: the body returned by the db-status handler does not
consist of exactly the two fields activities_count and connection_status — it
carries a third field, database_name. -/
theorem claim_C8_cex :
    (get_db_status demoStore (some "mergington_high")).2.map Prod.fst ≠
      ["activities_count", "connection_status"] := by
  decide

/-- Claim C8 (amended): db-status always returns status 200 with a body of
exactly three fields — activities_count equal to the record count,
connection_status equal to "Connected" when the database handle is available
and "Not connected" otherwise, and additionally database_name. -/
theorem claim_C8 (store : Store) (db : Option String) :
    (get_db_status store db).1 = 200 ∧
    (get_db_status store db).2.map Prod.fst =
      ["activities_count", "connection_status", "database_name"] ∧
    ((get_db_status store db).2.find?
        (fun kv => kv.1 == "activities_count")).map (·.2) =
      some (JsonVal.int (count_documents store)) ∧
    ((get_db_status store db).2.find?
        (fun kv => kv.1 == "connection_status")).map (·.2) =
      some (JsonVal.str
        (if db.isSome then "Connected" else "Not connected")) := by
  refine ⟨rfl, rfl, rfl, rfl⟩

/-- Claim C9: a request body lacking the "email" key is not rejected — the
handler proceeds with a null email, so signup on an existing, non-full
activity whose roster holds no null succeeds and appends null. -/
theorem claim_C9 (store : Store) (name : String) (data : Body) (A : Activity)
    (hkey : ∀ kv ∈ data, kv.1 ≠ "email")
    (hA : find_one store name = some A)
    (hnull : none ∉ A.participants)
    (hlen : A.participants.length < A.max_participants) :
    jsonGet data "email" = none ∧
    (signup_for_activity store name data).1 =
      Except.ok ("Signed up " ++ "None" ++ " for " ++ name) ∧
    find_one (signup_for_activity store name data).2 name =
      some { A with participants := A.participants ++ [none] } := by
  have hget : jsonGet data "email" = none := by
    unfold jsonGet
    have hfind : data.find? (fun kv => kv.1 == "email") = none := by
      rw [List.find?_eq_none]
      intro kv hkv
      simpa [beq_iff_eq] using hkey kv hkv
    rw [hfind]
  have hnotfull : ¬ A.participants.length ≥ A.max_participants := by omega
  refine ⟨hget, ?_, ?_⟩
  · simp [signup_for_activity, hget, signUp, hA, hnull, hnotfull, emailText]
  · simp [signup_for_activity, hget, signUp, hA, hnull, hnotfull,
      find_one_push]

/-- Witness for C9: an empty request body signs null up for "Chess Club" on
the demo store. -/
theorem claim_C9_witness :
    jsonGet [] "email" = none ∧
    (signup_for_activity demoStore "Chess Club" []).1 =
      Except.ok ("Signed up " ++ "None" ++ " for " ++ "Chess Club") ∧
    find_one (signup_for_activity demoStore "Chess Club" []).2 "Chess Club" =
      some { chessClub with participants := [none] } := by
  have h := claim_C9 demoStore "Chess Club" [] chessClub
    (by intro kv hkv; simp at hkv) (by decide) (by decide) (by decide)
  simpa [chessClub] using h

/-- Claim C10: a successful signup or unregister on activity name N modifies
only the participants field of the first record keyed N — the description,
schedule and max_participants of every record, and every record keyed other
than N, are unchanged. -/
theorem claim_C10 (store : Store) (name : String) (email : Option String) :
    (∀ msg, (signUp store name email).1 = Except.ok msg →
      List.Forall₂ (sameFrame name) store (signUp store name email).2) ∧
    (∀ msg, (unregister store name email).1 = Except.ok msg →
      List.Forall₂ (sameFrame name) store (unregister store name email).2) := by
  constructor
  · intro msg h
    rcases hA : find_one store name with _ | A
    · simp [signUp, hA] at h
    · by_cases hm : email ∈ A.participants
      · simp [signUp, hA, hm] at h
      · by_cases hfull : A.participants.length ≥ A.max_participants
        · simp [signUp, hA, hm, hfull] at h
        · have hsnd : (signUp store name email).2 =
              pushParticipant store name email := by
            simp [signUp, hA, hm, hfull]
          rw [hsnd]
          exact frame_push name email store
  · intro msg h
    rcases hA : find_one store name with _ | A
    · simp [unregister, hA] at h
    · by_cases hm : email ∈ A.participants
      · have hsnd : (unregister store name email).2 =
            pullParticipant store name email := by
          simp [unregister, hA, hm]
        rw [hsnd]
        exact frame_pull name email store
      · simp [unregister, hA, hm] at h

/-- Witness for C10: the frame relation holds after a concrete successful
signup on the demo store and after a concrete successful unregister. -/
theorem claim_C10_witness :
    List.Forall₂ (sameFrame "Chess Club") demoStore
      (signUp demoStore "Chess Club" (some "a@x.com")).2 ∧
    List.Forall₂ (sameFrame "Chess Club")
      [("Chess Club", { chessClub with participants := [some "a@x.com"] })]
      (unregister
        [("Chess Club", { chessClub with participants := [some "a@x.com"] })]
        "Chess Club" (some "a@x.com")).2 :=
  ⟨(claim_C10 demoStore "Chess Club" (some "a@x.com")).1
      ("Signed up " ++ "a@x.com" ++ " for " ++ "Chess Club") (by rfl),
   (claim_C10
      [("Chess Club", { chessClub with participants := [some "a@x.com"] })]
      "Chess Club" (some "a@x.com")).2
      ("Unregistered " ++ "a@x.com" ++ " from " ++ "Chess Club") (by rfl)⟩

end Mergington
